import Mathlib

/-!
Shallow embedding of the compute-shader program synthesizers of this
repository:

* `src/src/backends/webgl/mulmat_packed_gpu_cs.ts` —
  `MatMulPackedProgramCSV1` … `MatMulPackedProgramCSV4` and
  `DecodeMatrixPackedProgram`;
* `src/src/kernels/webgl/conv_gpu_depthwise_cs.ts` —
  `DepthwiseConv2DProgramCS` and `Conv2DProgramCS`.

Each TypeScript constructor is embedded as a total Lean function from the
constructor's parameters to a record holding the fields of the produced
program object together with the constants and code fragments that the
constructor splices into the emitted shader text (tile counts, remainder
guards, swizzle tables, shared-array extents, store coordinates, the
statement skeleton of the emitted `main` body).  Shapes and tiling
parameters are nonnegative integers, so they are modelled as `Nat`;
coordinates that the emitted GLSL computes as signed `int` values (padding
makes them negative) are modelled as `Int`.
-/

/-- JavaScript `Math.ceil(a / b)` for nonnegative integers `a`, `b` with
`b > 0` (used by the sources as `Math.ceil(sharedDim / 2)` and
`Math.ceil(sharedDimensionPacked / TS)`). -/
def jsCeilDiv (a b : Nat) : Nat := (a + b - 1) / b

/-- Top-level statements of an emitted matmul `main` body, in the order the
string template of `mulmat_packed_gpu_cs.ts` emits them. -/
inductive MStmt where
  /-- `ivec3 rc = getOutputCoords();` -/
  | getOutputCoords
  /-- the `int row = ... / int col = ... / globalRow / globalCol / offset`
  declarations. -/
  | computeThreadIds
  /-- `vec4 result = vec4(0);` (CSV1, line 72). -/
  | declAccZeroInit
  /-- `vec4 result[WPT];` with no initializer (CSV2, line 164). -/
  | declAccNoInit (wpt : Nat)
  /-- `vec4 Breg[WPT];` (CSV3 line 259, CSV4 line 389). -/
  | declBreg (wpt : Nat)
  /-- `vec4 result[WPT][WPT];` / `vec4 acc[WPTM][WPTN];` with no
  initializer (CSV3 line 260, CSV4 line 390). -/
  | declAcc2D (wpt : Nat)
  /-- the double loop setting every accumulator entry to `vec4(0)`
  (CSV3 lines 262–266, CSV4 lines 392–396). -/
  | zeroAccLoop (wpt : Nat)
  /-- `for (int t = 0; t < numTiles; t++) { ... }` — the whole tile loop
  (load, barriers, accumulate with `+=`). -/
  | tileLoop (numTiles : Nat)
  /-- `result += getBiasAtOutCoords();` -/
  | addBiasStmt
  /-- `result = activation(result);` -/
  | applyActivationStmt
  /-- `setOutput(result);` (CSV1, line 102) — commit through the backend
  intrinsic, no coordinate or guard in the emitted body. -/
  | setOutputStmt
  /-- CSV2 lines 196–199: `for (w) imageStore(..., result[w]);` with no
  range check. -/
  | storeLoopUnguarded (wpt : Nat)
  /-- CSV3 lines 311–325 / CSV4 lines 441–455: the store loop whose every
  `imageStore` is guarded by `outputRow < rowBound` and
  `outputCol < colBound`. -/
  | storeLoopGuarded (wpt rowBound colBound : Nat)
deriving DecidableEq

/-- `true` iff the statement list zero-initializes the register accumulator
before the first tile loop (either `vec4 result = vec4(0);` or the
explicit double zero loop). -/
def accInitialized : List MStmt → Bool
  | [] => false
  | MStmt.declAccZeroInit :: _ => true
  | MStmt.zeroAccLoop _ :: _ => true
  | MStmt.tileLoop _ :: _ => false
  | _ :: rest => accInitialized rest

/-- Program object produced by `MatMulPackedProgramCSV1`
(`mulmat_packed_gpu_cs.ts` lines 20–106). -/
structure MatMulV1 where
  variableNames : List String
  usesPackedTextures : Bool
  outputShape : Nat × Nat × Nat
  localGroupSize : List Nat
  /-- `Math.ceil(sharedDim / 2)` (line 34). -/
  sharedDimensionPacked : Nat
  /-- the two A-swizzle patterns spliced into the dot-product (line 40). -/
  aSwizzle : List String
  /-- the two B-swizzle patterns spliced into the dot-product (line 41). -/
  bSwizzle : List String
  /-- extents of `shared vec4 Asub[.][.]` (line 61). -/
  asubDims : Nat × Nat
  /-- extents of `shared vec4 Bsub[.][.]` (line 62). -/
  bsubDims : Nat × Nat
  /-- the emitted `int numTiles = ...` constant (line 71). -/
  numTiles : Nat
  /-- the emitted `int sizeTS = (t == numTiles-1 && R % TS != 0) ? R % TS
  : TS` expression as a function of the loop counter `t` (lines 85–87). -/
  sizeTS : Nat → Nat
  /-- top-level statements of the emitted `main`. -/
  body : List MStmt

/-- Embedding of the `MatMulPackedProgramCSV1` constructor. -/
def mkMatMulPackedProgramCSV1 (aShape : Nat × Nat × Nat)
    (outputShape : Nat × Nat × Nat) (transposeA transposeB : Bool)
    (TS : Nat) (addBias : Bool) (activation : Option String) : MatMulV1 :=
  let sharedDim := if transposeA then aShape.2.1 else aShape.2.2
  let sharedDimensionPacked := jsCeilDiv sharedDim 2
  let aSwizzle := if transposeA then ["a.xxyy", "a.zzww"]
                  else ["a.xxzz", "a.yyww"]
  let bSwizzle := if transposeB then ["b.xzxz", "b.ywyw"]
                  else ["b.xyxy", "b.zwzw"]
  let numTiles := jsCeilDiv sharedDimensionPacked TS
  { variableNames := ["matrixA", "matrixB"] ++
      (if addBias then ["bias"] else [])
    usesPackedTextures := true
    outputShape := outputShape
    localGroupSize := [TS, TS]
    sharedDimensionPacked := sharedDimensionPacked
    aSwizzle := aSwizzle
    bSwizzle := bSwizzle
    asubDims := (TS, TS)
    bsubDims := (TS, TS)
    numTiles := numTiles
    sizeTS := fun t =>
      if t = numTiles - 1 ∧ sharedDimensionPacked % TS ≠ 0 then
        sharedDimensionPacked % TS
      else TS
    body := [MStmt.getOutputCoords, MStmt.computeThreadIds,
             MStmt.declAccZeroInit, MStmt.tileLoop numTiles] ++
            (if addBias then [MStmt.addBiasStmt] else []) ++
            (if activation.isSome then [MStmt.applyActivationStmt] else [])
            ++ [MStmt.setOutputStmt] }

/-- Program object produced by `MatMulPackedProgramCSV2`
(`mulmat_packed_gpu_cs.ts` lines 108–203). -/
structure MatMulV2 where
  variableNames : List String
  usesPackedTextures : Bool
  outputShape : Nat × Nat × Nat
  localGroupSize : List Nat
  workPerThread : List Nat
  sharedDimensionPacked : Nat
  aSwizzle : List String
  bSwizzle : List String
  asubDims : Nat × Nat
  bsubDims : Nat × Nat
  numTiles : Nat
  sizeTS : Nat → Nat
  /-- image coordinates `(x, y)` written by the final store loop
  (lines 196–199) for the thread with workgroup id `(wgX, wgY)` and local
  id `(col, row)`: one unconditional `imageStore` at
  `ivec2(globalCol, globalRow + w*RTS)` per `w < WPT`. -/
  stores : Nat → Nat → Nat → Nat → List (Nat × Nat)
  body : List MStmt

/-- Embedding of the `MatMulPackedProgramCSV2` constructor. -/
def mkMatMulPackedProgramCSV2 (aShape : Nat × Nat × Nat)
    (outputShape : Nat × Nat × Nat) (transposeA transposeB : Bool)
    (TS WPT : Nat) (addBias : Bool) (activation : Option String) :
    MatMulV2 :=
  let sharedDim := if transposeA then aShape.2.1 else aShape.2.2
  let sharedDimensionPacked := jsCeilDiv sharedDim 2
  let RTS := TS / WPT
  let aSwizzle := if transposeA then ["a.xxyy", "a.zzww"]
                  else ["a.xxzz", "a.yyww"]
  let bSwizzle := if transposeB then ["b.xzxz", "b.ywyw"]
                  else ["b.xyxy", "b.zwzw"]
  let numTiles := jsCeilDiv sharedDimensionPacked TS
  { variableNames := ["matrixA", "matrixB"] ++
      (if addBias then ["bias"] else [])
    usesPackedTextures := true
    outputShape := outputShape
    localGroupSize := [TS, RTS]
    workPerThread := [1, WPT]
    sharedDimensionPacked := sharedDimensionPacked
    aSwizzle := aSwizzle
    bSwizzle := bSwizzle
    asubDims := (TS, TS)
    bsubDims := (TS, TS)
    numTiles := numTiles
    sizeTS := fun t =>
      if t = numTiles - 1 ∧ sharedDimensionPacked % TS ≠ 0 then
        sharedDimensionPacked % TS
      else TS
    stores := fun wgX wgY row col =>
      let globalRow := TS * wgY + row
      let globalCol := TS * wgX + col
      (List.range WPT).map (fun w => (globalCol, globalRow + w * RTS))
    body := [MStmt.getOutputCoords, MStmt.computeThreadIds,
             MStmt.declAccNoInit WPT, MStmt.tileLoop numTiles] ++
            (if addBias then [MStmt.addBiasStmt] else []) ++
            (if activation.isSome then [MStmt.applyActivationStmt] else [])
            ++ [MStmt.storeLoopUnguarded WPT] }

/-- Program object produced by `MatMulPackedProgramCSV3`
(`mulmat_packed_gpu_cs.ts` lines 205–329). -/
structure MatMulV3 where
  variableNames : List String
  usesPackedTextures : Bool
  outputShape : Nat × Nat × Nat
  localGroupSize : List Nat
  workPerThread : List Nat
  sharedDimensionPacked : Nat
  aSwizzle : List String
  bSwizzle : List String
  asubDims : Nat × Nat
  bsubDims : Nat × Nat
  numTiles : Nat
  sizeTS : Nat → Nat
  /-- messages printed with `console.error` during construction
  (line 244); construction itself always returns the program. -/
  consoleErrors : List String
  /-- image coordinates `(x, y)` written by the final store loop
  (lines 311–325) for the thread with workgroup id `(wgX, wgY)` and local
  id `(col, row)`: each `imageStore` at `ivec2(outputCol, outputRow)` runs
  only when `outputRow < ceil(outputShape[1]/2)` and
  `outputCol < ceil(outputShape[2]/2)`; `continue` skips it otherwise. -/
  stores : Nat → Nat → Nat → Nat → List (Nat × Nat)
  body : List MStmt

/-- Embedding of the `MatMulPackedProgramCSV3` constructor. -/
def mkMatMulPackedProgramCSV3 (aShape : Nat × Nat × Nat)
    (outputShape : Nat × Nat × Nat) (transposeA transposeB : Bool)
    (TS WPT : Nat) (addBias : Bool) (activation : Option String) :
    MatMulV3 :=
  let sharedDim := if transposeA then aShape.2.1 else aShape.2.2
  let sharedDimensionPacked := jsCeilDiv sharedDim 2
  let RTS := TS / WPT
  let aSwizzle := if transposeA then ["a.xxyy", "a.zzww"]
                  else ["a.xxzz", "a.yyww"]
  let bSwizzle := if transposeB then ["b.xzxz", "b.ywyw"]
                  else ["b.xyxy", "b.zwzw"]
  let numTiles := jsCeilDiv sharedDimensionPacked TS
  { variableNames := ["matrixA", "matrixB"]
    usesPackedTextures := true
    outputShape := outputShape
    localGroupSize := [RTS, RTS]
    workPerThread := [WPT, WPT]
    sharedDimensionPacked := sharedDimensionPacked
    aSwizzle := aSwizzle
    bSwizzle := bSwizzle
    asubDims := (TS, TS)
    bsubDims := (TS, TS)
    numTiles := numTiles
    sizeTS := fun t =>
      if t = numTiles - 1 ∧ sharedDimensionPacked % TS ≠ 0 then
        sharedDimensionPacked % TS
      else TS
    consoleErrors := if addBias then ["bias is not supported"] else []
    stores := fun wgX wgY row col =>
      let globalRow := TS * wgY + row
      let globalCol := TS * wgX + col
      (List.range WPT).flatMap (fun innerRow =>
        let outputRow := globalRow + innerRow * RTS
        if jsCeilDiv outputShape.2.1 2 ≤ outputRow then []
        else
          (List.range WPT).filterMap (fun innerCol =>
            let outputCol := globalCol + innerCol * RTS
            if jsCeilDiv outputShape.2.2 2 ≤ outputCol then none
            else some (outputCol, outputRow)))
    body := [MStmt.getOutputCoords, MStmt.computeThreadIds,
             MStmt.declBreg WPT, MStmt.declAcc2D WPT,
             MStmt.zeroAccLoop WPT, MStmt.tileLoop numTiles,
             MStmt.storeLoopGuarded WPT (jsCeilDiv outputShape.2.1 2)
               (jsCeilDiv outputShape.2.2 2)] }

/-- Program object produced by `MatMulPackedProgramCSV4`
(`mulmat_packed_gpu_cs.ts` lines 331–459). -/
structure MatMulV4 where
  variableNames : List String
  usesPackedTextures : Bool
  outputShape : Nat × Nat × Nat
  localGroupSize : List Nat
  workPerThread : List Nat
  sharedDimensionPacked : Nat
  aSwizzle : List String
  bSwizzle : List String
  /-- extents of `shared vec4 Asub[TSM][TSK]` (line 379). -/
  asubDims : Nat × Nat
  /-- extents of `shared vec4 Bsub[TSK][TSN]` (line 380). -/
  bsubDims : Nat × Nat
  /-- `LPTA = TSK * WPTM * WPTN / TSN` (line 350). -/
  lpta : Nat
  /-- the emitted `int numTiles = Math.ceil(R / TSK)` constant
  (line 399). -/
  numTiles : Nat
  /-- the emitted `int sizeTS = (t == numTiles-1 && R % TSK != 0) ?
  R % TSK : TSK` expression as a function of `t` (lines 416–418). -/
  sizeTS : Nat → Nat
  /-- messages printed with `console.error` during construction
  (line 373). -/
  consoleErrors : List String
  /-- image coordinates `(x, y)` written by the final store loop
  (lines 441–455) for the thread with workgroup id `(wgX, wgY)` and local
  id `(tidn, tidm)`: each `imageStore` at `ivec2(globalCol, globalRow)`
  runs only when `globalRow < ceil(outputShape[1]/2)` and
  `globalCol < ceil(outputShape[2]/2)`. -/
  stores : Nat → Nat → Nat → Nat → List (Nat × Nat)
  body : List MStmt

/-- Embedding of the `MatMulPackedProgramCSV4` constructor. -/
def mkMatMulPackedProgramCSV4 (aShape : Nat × Nat × Nat)
    (outputShape : Nat × Nat × Nat) (transposeA transposeB : Bool)
    (TS TSK WPT : Nat) (addBias : Bool) (activation : Option String) :
    MatMulV4 :=
  let sharedDim := if transposeA then aShape.2.1 else aShape.2.2
  let sharedDimensionPacked := jsCeilDiv sharedDim 2
  let TSM := TS
  let TSN := TS
  let WPTM := WPT
  let WPTN := WPT
  let LPTA := TSK * WPTM * WPTN / TSN
  let RTSM := TSM / WPTM
  let RTSN := TSN / WPTN
  let aSwizzle := if transposeA then ["a.xxyy", "a.zzww"]
                  else ["a.xxzz", "a.yyww"]
  let bSwizzle := if transposeB then ["b.xzxz", "b.ywyw"]
                  else ["b.xyxy", "b.zwzw"]
  let numTiles := jsCeilDiv sharedDimensionPacked TSK
  { variableNames := ["matrixA", "matrixB"]
    usesPackedTextures := true
    outputShape := outputShape
    localGroupSize := [RTSN, RTSM]
    workPerThread := [WPTN, WPTM]
    sharedDimensionPacked := sharedDimensionPacked
    aSwizzle := aSwizzle
    bSwizzle := bSwizzle
    asubDims := (TSM, TSK)
    bsubDims := (TSK, TSN)
    lpta := LPTA
    numTiles := numTiles
    sizeTS := fun t =>
      if t = numTiles - 1 ∧ sharedDimensionPacked % TSK ≠ 0 then
        sharedDimensionPacked % TSK
      else TSK
    consoleErrors := if addBias then ["bias is not supported"] else []
    stores := fun wgX wgY tidm tidn =>
      let offsetM := TSM * wgY
      let offsetN := TSN * wgX
      (List.range WPTM).flatMap (fun wm =>
        let globalRow := offsetM + tidm + wm * RTSM
        if jsCeilDiv outputShape.2.1 2 ≤ globalRow then []
        else
          (List.range WPTN).filterMap (fun wn =>
            let globalCol := offsetN + tidn + wn * RTSN
            if jsCeilDiv outputShape.2.2 2 ≤ globalCol then none
            else some (globalCol, globalRow)))
    body := [MStmt.getOutputCoords, MStmt.computeThreadIds,
             MStmt.declBreg WPT, MStmt.declAcc2D WPT,
             MStmt.zeroAccLoop WPT, MStmt.tileLoop numTiles,
             MStmt.storeLoopGuarded WPT (jsCeilDiv outputShape.2.1 2)
               (jsCeilDiv outputShape.2.2 2)] }

/-- The convolution descriptor (`Conv2DInfo` of `conv_util`), restricted to
the fields the two convolution synthesizers read; `padInfo.top` and
`padInfo.left` are flattened to `padTop` / `padLeft`. -/
structure Conv2DInfo where
  inHeight : Nat
  inWidth : Nat
  inChannels : Nat
  outChannels : Nat
  outShape : List Nat
  strideHeight : Nat
  strideWidth : Nat
  dilationHeight : Nat
  dilationWidth : Nat
  filterHeight : Nat
  filterWidth : Nat
  padTop : Nat
  padLeft : Nat
deriving DecidableEq

/-- Top-level statements of the `main` body emitted by
`DepthwiseConv2DProgramCS` (`conv_gpu_depthwise_cs.ts` lines 57–128), in
emission order. -/
inductive DwStmt where
  /-- `ivec4 coords = getFirstThreadOutputCoords();` (line 58). -/
  | getFirstThreadCoords
  /-- the cache-corner computations (lines 59–63). -/
  | computeCacheCorners
  /-- the cache fill, guarded by `if (index < cacheHW)` only
  (lines 68–86). -/
  | fillCacheIf
  /-- `memoryBarrierShared();` (line 88). -/
  | memBarrierShared
  /-- `barrier();` (line 89). -/
  | barrierStmt
  /-- `if (int(gl_GlobalInvocationID.x) >= outChannels) return;`
  (lines 92–94). -/
  | discardIfOutOfRange
  /-- the receptive-field double loop accumulating `dotProd`
  (lines 96–126). -/
  | computeDotProd
  /-- `setOutput(dotProd);` (line 127). -/
  | setOutputStmt
deriving DecidableEq

/-- Program object produced by `DepthwiseConv2DProgramCS`
(`conv_gpu_depthwise_cs.ts` lines 21–131). -/
structure DepthwiseProgram where
  variableNames : List String
  outputShape : List Nat
  localGroupSize : List Nat
  /-- `channelMul = outChannels / inChannels` (line 40). -/
  channelMul : Nat
  /-- `cacheH = filterHeight` (line 49). -/
  cacheH : Nat
  /-- `cacheW = (localGroupSize[1] - 1) * strideWidth + filterWidth`
  (lines 50–51). -/
  cacheW : Nat
  /-- `cacheC = localGroupSize[0] / channelMul` (line 52). -/
  cacheC : Nat
  /-- `cacheHW = cacheH * cacheW` (line 53). -/
  cacheHW : Nat
  body : List DwStmt

/-- Embedding of the `DepthwiseConv2DProgramCS` constructor. -/
def mkDepthwiseConv2DProgramCS (convInfo : Conv2DInfo) : DepthwiseProgram :=
  let channelMul := convInfo.outChannels / convInfo.inChannels
  let localGroupSize := [8 * channelMul, 7]
  let cacheH := convInfo.filterHeight
  let cacheW := (7 - 1) * convInfo.strideWidth + convInfo.filterWidth
  let cacheC := (8 * channelMul) / channelMul
  { variableNames := ["x", "W"]
    outputShape := convInfo.outShape
    localGroupSize := localGroupSize
    channelMul := channelMul
    cacheH := cacheH
    cacheW := cacheW
    cacheC := cacheC
    cacheHW := cacheH * cacheW
    body := [DwStmt.getFirstThreadCoords, DwStmt.computeCacheCorners,
             DwStmt.fillCacheIf, DwStmt.memBarrierShared,
             DwStmt.barrierStmt, DwStmt.discardIfOutOfRange,
             DwStmt.computeDotProd, DwStmt.setOutputStmt] }

/-- The identifiers of one invocation (thread) that the depthwise body
reads: `gl_LocalInvocationIndex` and `gl_GlobalInvocationID.x` (the output
channel axis). -/
structure DwThread where
  localIndex : Nat
  globalX : Nat

/-- The cache-fill guard emitted at line 69: a thread writes the shared
cache iff `gl_LocalInvocationIndex < cacheHW`, with no reference to the
thread's output channel. -/
def dwFillsCache (P : DepthwiseProgram) (t : DwThread) : Bool :=
  decide (t.localIndex < P.cacheHW)

/-- Straight-line execution of the emitted depthwise `main` for one thread:
statements run in order, and `discardIfOutOfRange` returns (stopping the
thread) exactly when `gl_GlobalInvocationID.x >= outChannels`. The result
is the list of statements the thread actually reaches. -/
def dwRun (outChannels : Nat) (t : DwThread) : List DwStmt → List DwStmt
  | [] => []
  | DwStmt.discardIfOutOfRange :: rest =>
      if outChannels ≤ t.globalX then [DwStmt.discardIfOutOfRange]
      else DwStmt.discardIfOutOfRange :: dwRun outChannels t rest
  | s :: rest => s :: dwRun outChannels t rest

/-- The emitted `int d1 = d2 / channelMul;` (line 101). -/
def dwD1 (channelMul d2 : Nat) : Nat := d2 / channelMul

/-- The emitted `int q = d2 - d1 * channelMul;` (line 102). -/
def dwQ (channelMul d2 : Nat) : Nat := d2 - dwD1 channelMul d2 * channelMul

/-- Program object produced by `Conv2DProgramCS`
(`conv_gpu_depthwise_cs.ts` lines 152–282). -/
structure Conv2DProgram where
  variableNames : List String
  outputShape : List Nat
  localGroupSize : List Nat
  /-- `cacheH = 3` (line 177). -/
  cacheH : Nat
  /-- `cacheW = BLOCK_SIZE * strideWidth + 1` (line 178). -/
  cacheW : Nat
  /-- `cacheC = inChannels` (line 179). -/
  cacheC : Nat
  inputDepthNearestVec4 : Nat
  inputDepthVec4Remainder : Nat
  /-- The shared-cache indices `(sR, sC)` read by the compute phase
  (lines 218–277) for the thread whose output coordinates are
  `(batch, yR, yC, d2)`: for each filter tap `(wR, wC)` passing the
  emitted guards `!(xR < 0 || xR >= inHeight)` and
  `!(xC < 0 || xC >= inWidth)`, the body reads
  `cache[sR][sC + d1]` with `sR = xR - cacheRCorner` and
  `sC = (xC - cacheCCorner) * inChannels` (lines 224, 231), where
  `cacheRCorner`/`cacheCCorner` come from lines 193–196 (no pad
  subtraction). -/
  reads : Nat → Nat → List (Int × Int)

/-- Embedding of the `Conv2DProgramCS` constructor. -/
def mkConv2DProgramCS (convInfo : Conv2DInfo) : Conv2DProgram :=
  let inputDepthNearestVec4 := convInfo.inChannels / 4 * 4
  let inputDepthVec4Remainder := convInfo.inChannels % 4
  let BLOCK_SIZE := 16
  { variableNames := ["x", "W"]
    outputShape := convInfo.outShape
    localGroupSize := [8, 16]
    cacheH := 3
    cacheW := BLOCK_SIZE * convInfo.strideWidth + 1
    cacheC := convInfo.inChannels
    inputDepthNearestVec4 := inputDepthNearestVec4
    inputDepthVec4Remainder := inputDepthVec4Remainder
    reads := fun yR yC =>
      let xRCorner : Int := (yR * convInfo.strideHeight : Nat) -
        (convInfo.padTop : Int)
      let xCCorner : Int := (yC * convInfo.strideWidth : Nat) -
        (convInfo.padLeft : Int)
      let cacheRCorner : Int := (yR * convInfo.strideHeight : Nat)
      let cacheCCorner : Int :=
        (BLOCK_SIZE * (yC / BLOCK_SIZE) * convInfo.strideWidth : Nat)
      (List.range convInfo.filterHeight).flatMap (fun wR =>
        let xR := xRCorner + (wR * convInfo.dilationHeight : Nat)
        if xR < 0 ∨ (convInfo.inHeight : Int) ≤ xR then []
        else
          let sR := xR - cacheRCorner
          (List.range convInfo.filterWidth).filterMap (fun wC =>
            let xC := xCCorner + (wC * convInfo.dilationWidth : Nat)
            if xC < 0 ∨ (convInfo.inWidth : Int) ≤ xC then none
            else some (sR, (xC - cacheCCorner) * (convInfo.inChannels : Int)))) }

/-- Program object produced by `DecodeMatrixPackedProgram`
(second file of `mulmat_packed_gpu_cs.ts`, lines 481–520). -/
structure DecodeProgram where
  variableNames : List String
  usesPackedTextures : Bool
  outputShape : Nat × Nat × Nat
  texShape : Nat × Nat

/-- Embedding of the `DecodeMatrixPackedProgram` constructor. -/
def mkDecodeMatrixPackedProgram (outputShape : Nat × Nat × Nat)
    (texShape : Nat × Nat) : DecodeProgram :=
  { variableNames := ["A"]
    usesPackedTextures := true
    outputShape := outputShape
    texShape := texShape }

/-- `Math.ceil(R / T)` on naturals, expressed through truncating division:
it is `R / T` when `T` divides `R` and `R / T + 1` otherwise. -/
lemma jsCeilDiv_eq (R T : Nat) (hR : 0 < R) (hT : 0 < T) :
    jsCeilDiv R T = if R % T = 0 then R / T else R / T + 1 := by
  have h1 : R + T - 1 = (R - 1) + T := by omega
  have h2 : ((R - 1) + T) / T = (R - 1) / T + 1 := Nat.add_div_right _ hT
  have h3 : R = (R - 1) + 1 := by omega
  have h4 : R / T = (R - 1) / T + if T ∣ R then 1 else 0 := by
    nth_rewrite 1 [h3]
    rw [Nat.succ_div, ← h3]
  unfold jsCeilDiv
  rw [h1, h2]
  by_cases hd : R % T = 0
  · have hdvd : T ∣ R := Nat.dvd_of_mod_eq_zero hd
    rw [if_pos hd]
    rw [if_pos hdvd] at h4
    omega
  · have hdvd : ¬ T ∣ R := fun hc => hd (Nat.dvd_iff_mod_eq_zero.mp hc)
    rw [if_neg hd]
    rw [if_neg hdvd] at h4
    omega

/-- Ceiling-division tiling facts shared by the four matmul variants: the
tile count covers the reduction extent with no spare tile, and the
remainder `R - T * (numTiles - 1)` left for the last tile is `T` when `T`
divides `R` and `R % T` otherwise. -/
lemma tile_remainder_core (R T : Nat) (hR : 0 < R) (hT : 0 < T) :
    R ≤ T * jsCeilDiv R T ∧ T * (jsCeilDiv R T - 1) < R ∧
    R - T * (jsCeilDiv R T - 1) = if R % T = 0 then T else R % T := by
  have hdm : T * (R / T) + R % T = R := Nat.div_add_mod R T
  have hmlt : R % T < T := Nat.mod_lt _ hT
  rw [jsCeilDiv_eq R T hR hT]
  by_cases hd : R % T = 0
  · rw [if_pos hd, if_pos hd]
    have hq : 0 < R / T := by
      rcases Nat.eq_zero_or_pos (R / T) with h0 | h
      · rw [h0, Nat.mul_zero] at hdm; omega
      · exact h
    obtain ⟨q, hq'⟩ : ∃ q, R / T = q + 1 := ⟨R / T - 1, by omega⟩
    rw [hq'] at hdm ⊢
    have e1 : T * (q + 1) = T * q + T := by ring
    simp only [Nat.add_sub_cancel]
    omega
  · rw [if_neg hd, if_neg hd]
    have e1 : T * (R / T + 1) = T * (R / T) + T := by ring
    simp only [Nat.add_sub_cancel]
    omega

/-- **C1**: for every matmul variant (CSV1–CSV3 with tile edge `TS`, CSV4
with tile edge `TSK`) and every packed reduction extent
`R = ceil(sharedDim/2) > 0`, the emitted `numTiles` constant is
`ceil(R/tileEdge)` (characterized by `R ≤ tileEdge*numTiles` and
`tileEdge*(numTiles-1) < R`), and the emitted last-tile `sizeTS` guard
constant equals `R - tileEdge*(numTiles-1)` when `R mod tileEdge ≠ 0` and
`tileEdge` otherwise; CSV2, CSV3 and (at the same tile edge) CSV4 compute
`numTiles` and `sizeTS` identically to CSV1. -/
theorem matmul_tile_count_and_last_tile
    (aShape outS : Nat × Nat × Nat) (tA tB : Bool) (TS TSK WPT : Nat)
    (ab : Bool) (act : Option String) (hTS : 0 < TS) (hTSK : 0 < TSK)
    (hR : 0 < (mkMatMulPackedProgramCSV1 aShape outS tA tB TS ab
      act).sharedDimensionPacked) :
    let P1 := mkMatMulPackedProgramCSV1 aShape outS tA tB TS ab act
    let P2 := mkMatMulPackedProgramCSV2 aShape outS tA tB TS WPT ab act
    let P3 := mkMatMulPackedProgramCSV3 aShape outS tA tB TS WPT ab act
    let P4 := mkMatMulPackedProgramCSV4 aShape outS tA tB TS TSK WPT ab act
    let Q1 := mkMatMulPackedProgramCSV1 aShape outS tA tB TSK ab act
    let R := P1.sharedDimensionPacked
    (R ≤ TS * P1.numTiles ∧ TS * (P1.numTiles - 1) < R) ∧
    P1.sizeTS (P1.numTiles - 1) =
      (if R % TS ≠ 0 then R - TS * (P1.numTiles - 1) else TS) ∧
    (P2.numTiles = P1.numTiles ∧ P2.sizeTS = P1.sizeTS) ∧
    (P3.numTiles = P1.numTiles ∧ P3.sizeTS = P1.sizeTS) ∧
    P4.sharedDimensionPacked = R ∧
    (R ≤ TSK * P4.numTiles ∧ TSK * (P4.numTiles - 1) < R) ∧
    P4.sizeTS (P4.numTiles - 1) =
      (if R % TSK ≠ 0 then R - TSK * (P4.numTiles - 1) else TSK) ∧
    (P4.numTiles = Q1.numTiles ∧ P4.sizeTS = Q1.sizeTS) := by
  intro P1 P2 P3 P4 Q1 R
  have hcore := tile_remainder_core R TS hR hTS
  have hcoreK := tile_remainder_core R TSK hR hTSK
  refine ⟨⟨hcore.1, hcore.2.1⟩, ?_, ⟨rfl, rfl⟩, ⟨rfl, rfl⟩, rfl,
    ⟨hcoreK.1, hcoreK.2.1⟩, ?_, ⟨rfl, rfl⟩⟩
  · show (if P1.numTiles - 1 = P1.numTiles - 1 ∧ R % TS ≠ 0 then R % TS
      else TS) = _
    by_cases hd : R % TS = 0
    · rw [if_neg (by simp [hd]), if_neg (by simp [hd])]
    · rw [if_pos ⟨rfl, hd⟩, if_pos hd]
      have h3 := hcore.2.2
      rw [if_neg hd] at h3
      have hnt : P1.numTiles = jsCeilDiv R TS := rfl
      rw [hnt]
      omega
  · show (if P4.numTiles - 1 = P4.numTiles - 1 ∧ R % TSK ≠ 0 then R % TSK
      else TSK) = _
    by_cases hd : R % TSK = 0
    · rw [if_neg (by simp [hd]), if_neg (by simp [hd])]
    · rw [if_pos ⟨rfl, hd⟩, if_pos hd]
      have h3 := hcoreK.2.2
      rw [if_neg hd] at h3
      have hnt : P4.numTiles = jsCeilDiv R TSK := rfl
      rw [hnt]
      omega

/-- Witness for `matmul_tile_count_and_last_tile` at
`aShape = (1,4,10)`, `TS = 2`, `TSK = 3`, `WPT = 1`
(`sharedDim = 10`, packed extent `R = 5`). -/
theorem matmul_tile_count_and_last_tile_witness :
    (0 < 2 ∧ 0 < 3 ∧
      0 < (mkMatMulPackedProgramCSV1 (1, 4, 10) (1, 4, 4) false false 2
        false none).sharedDimensionPacked) ∧
    (let P1 := mkMatMulPackedProgramCSV1 (1, 4, 10) (1, 4, 4) false false 2
       false none
     let P2 := mkMatMulPackedProgramCSV2 (1, 4, 10) (1, 4, 4) false false 2
       1 false none
     let P3 := mkMatMulPackedProgramCSV3 (1, 4, 10) (1, 4, 4) false false 2
       1 false none
     let P4 := mkMatMulPackedProgramCSV4 (1, 4, 10) (1, 4, 4) false false 2
       3 1 false none
     let Q1 := mkMatMulPackedProgramCSV1 (1, 4, 10) (1, 4, 4) false false 3
       false none
     let R := P1.sharedDimensionPacked
     (R ≤ 2 * P1.numTiles ∧ 2 * (P1.numTiles - 1) < R) ∧
     P1.sizeTS (P1.numTiles - 1) =
       (if R % 2 ≠ 0 then R - 2 * (P1.numTiles - 1) else 2) ∧
     (P2.numTiles = P1.numTiles ∧ P2.sizeTS = P1.sizeTS) ∧
     (P3.numTiles = P1.numTiles ∧ P3.sizeTS = P1.sizeTS) ∧
     P4.sharedDimensionPacked = R ∧
     (R ≤ 3 * P4.numTiles ∧ 3 * (P4.numTiles - 1) < R) ∧
     P4.sizeTS (P4.numTiles - 1) =
       (if R % 3 ≠ 0 then R - 3 * (P4.numTiles - 1) else 3) ∧
     (P4.numTiles = Q1.numTiles ∧ P4.sizeTS = Q1.sizeTS)) :=
  ⟨⟨by decide, by decide, by decide⟩,
   matmul_tile_count_and_last_tile (1, 4, 10) (1, 4, 4) false false 2 3 1
     false none (by decide) (by decide) (by decide)⟩

/-- **C2**: for every matmul variant and every descriptor, the emitted
swizzle pair for A is `(a.xxzz, a.yyww)` when `transposeA` is false and
`(a.xxyy, a.zzww)` when it is true, and the emitted swizzle pair for B is
`(b.xyxy, b.zwzw)` when `transposeB` is false and `(b.xzxz, b.ywyw)` when
it is true, independently of the shapes. -/
theorem matmul_swizzle_table (aShape outS : Nat × Nat × Nat)
    (tA tB : Bool) (TS TSK WPT : Nat) (ab : Bool) (act : Option String) :
    ((mkMatMulPackedProgramCSV1 aShape outS tA tB TS ab act).aSwizzle =
        (if tA then ["a.xxyy", "a.zzww"] else ["a.xxzz", "a.yyww"]) ∧
     (mkMatMulPackedProgramCSV1 aShape outS tA tB TS ab act).bSwizzle =
        (if tB then ["b.xzxz", "b.ywyw"] else ["b.xyxy", "b.zwzw"])) ∧
    ((mkMatMulPackedProgramCSV2 aShape outS tA tB TS WPT ab act).aSwizzle =
        (if tA then ["a.xxyy", "a.zzww"] else ["a.xxzz", "a.yyww"]) ∧
     (mkMatMulPackedProgramCSV2 aShape outS tA tB TS WPT ab act).bSwizzle =
        (if tB then ["b.xzxz", "b.ywyw"] else ["b.xyxy", "b.zwzw"])) ∧
    ((mkMatMulPackedProgramCSV3 aShape outS tA tB TS WPT ab act).aSwizzle =
        (if tA then ["a.xxyy", "a.zzww"] else ["a.xxzz", "a.yyww"]) ∧
     (mkMatMulPackedProgramCSV3 aShape outS tA tB TS WPT ab act).bSwizzle =
        (if tB then ["b.xzxz", "b.ywyw"] else ["b.xyxy", "b.zwzw"])) ∧
    ((mkMatMulPackedProgramCSV4 aShape outS tA tB TS TSK WPT ab
        act).aSwizzle =
        (if tA then ["a.xxyy", "a.zzww"] else ["a.xxzz", "a.yyww"]) ∧
     (mkMatMulPackedProgramCSV4 aShape outS tA tB TS TSK WPT ab
        act).bSwizzle =
        (if tB then ["b.xzxz", "b.ywyw"] else ["b.xyxy", "b.zwzw"])) :=
  ⟨⟨rfl, rfl⟩, ⟨rfl, rfl⟩, ⟨rfl, rfl⟩, ⟨rfl, rfl⟩⟩

/-- **C4** (amended): in `MatMulPackedProgramCSV3` and
`MatMulPackedProgramCSV4` every commit of an accumulator in the emitted
store loop is guarded by an in-range check on its packed output
coordinate: any image coordinate `(c, r)` actually written satisfies
`r < ceil(outputShape[1]/2)` and `c < ceil(outputShape[2]/2)`.  (CSV2
commits unconditionally — see the counterexample — and CSV1 commits
through the `setOutput` intrinsic with no emitted guard.) -/
theorem csv34_store_guard (aShape outS : Nat × Nat × Nat) (tA tB : Bool)
    (TS TSK WPT : Nat) (ab : Bool) (act : Option String)
    (wgX wgY row col c r : Nat)
    (hmem : (c, r) ∈ (mkMatMulPackedProgramCSV3 aShape outS tA tB TS WPT ab
        act).stores wgX wgY row col ∨
      (c, r) ∈ (mkMatMulPackedProgramCSV4 aShape outS tA tB TS TSK WPT ab
        act).stores wgX wgY row col) :
    r < jsCeilDiv outS.2.1 2 ∧ c < jsCeilDiv outS.2.2 2 := by
  rcases hmem with h | h
  · simp only [mkMatMulPackedProgramCSV3, List.mem_flatMap,
      List.mem_range] at h
    obtain ⟨ir, _, h2⟩ := h
    split_ifs at h2 with hrow
    · simp at h2
    · simp only [List.mem_filterMap, List.mem_range] at h2
      obtain ⟨ic, _, h3⟩ := h2
      split_ifs at h3 with hcol
      simp only [Option.some.injEq, Prod.mk.injEq] at h3
      exact ⟨by omega, by omega⟩
  · simp only [mkMatMulPackedProgramCSV4, List.mem_flatMap,
      List.mem_range] at h
    obtain ⟨wm, _, h2⟩ := h
    split_ifs at h2 with hrow
    · simp at h2
    · simp only [List.mem_filterMap, List.mem_range] at h2
      obtain ⟨wn, _, h3⟩ := h2
      split_ifs at h3 with hcol
      simp only [Option.some.injEq, Prod.mk.injEq] at h3
      exact ⟨by omega, by omega⟩

/-- Witness for `csv34_store_guard`: with `outputShape = (1,2,2)`,
`TS = 2`, `WPT = 1`, the CSV3 thread at workgroup `(0,0)`, local id
`(0,0)` stores at `(0,0)`, which is inside the packed output extent. -/
theorem csv34_store_guard_witness :
    ((0, 0) ∈ (mkMatMulPackedProgramCSV3 (1, 2, 2) (1, 2, 2) false false 2
        1 false none).stores 0 0 0 0 ∨
      (0, 0) ∈ (mkMatMulPackedProgramCSV4 (1, 2, 2) (1, 2, 2) false false 2
        2 1 false none).stores 0 0 0 0) ∧
    (0 < jsCeilDiv 2 2 ∧ 0 < jsCeilDiv 2 2) :=
  ⟨Or.inl (by decide),
   csv34_store_guard (1, 2, 2) (1, 2, 2) false false 2 2 1 false none
     0 0 0 0 0 0 (Or.inl (by decide))⟩

/-- **C4 counterexample**: `MatMulPackedProgramCSV2` commits accumulators
with no in-range guard.  With `outputShape = (1,2,2)` (packed extent
`ceil(2/2) = 1`), `TS = 2`, `WPT = 1`, the thread at workgroup `(0,0)`,
local id `(col,row) = (0,1)` performs an `imageStore` at image coordinate
`(0, 1)` whose row `1` is outside the packed output extent — refuting the
claim that every matmul variant guards every commit. -/
theorem csv2_unguarded_store_counterexample :
    (0, 1) ∈ (mkMatMulPackedProgramCSV2 (1, 2, 2) (1, 2, 2) false false 2 1
      false none).stores 0 0 1 0 ∧
    ¬ (1 < jsCeilDiv 2 2) := by decide

/-- **C5 counterexample**: requesting `addBias = true` on
`MatMulPackedProgramCSV3` / `CSV4` does not surface an error to the
caller: construction completes normally and returns a program whose
binding list omits `bias` (the request is dropped); the only signal is a
`console.error` log. -/
theorem csv34_bias_console_counterexample :
    (mkMatMulPackedProgramCSV3 (1, 4, 4) (1, 4, 4) false false 4 2 true
        none).consoleErrors = ["bias is not supported"] ∧
    (mkMatMulPackedProgramCSV3 (1, 4, 4) (1, 4, 4) false false 4 2 true
        none).variableNames = ["matrixA", "matrixB"] ∧
    (mkMatMulPackedProgramCSV4 (1, 4, 4) (1, 4, 4) false false 4 4 2 true
        none).consoleErrors = ["bias is not supported"] ∧
    (mkMatMulPackedProgramCSV4 (1, 4, 4) (1, 4, 4) false false 4 4 2 true
        none).variableNames = ["matrixA", "matrixB"] := by
  refine ⟨rfl, rfl, rfl, rfl⟩

/-- **C5** (amended): for every descriptor with `addBias = true`,
`MatMulPackedProgramCSV3` and `MatMulPackedProgramCSV4` log
`bias is not supported` with `console.error` and return a program with
the bias request dropped — `bias` is never added to `variableNames` and
no exception reaches the caller; no `UnsupportedConfiguration`-style
failure is raised. -/
theorem csv34_bias_logged_not_raised (aShape outS : Nat × Nat × Nat)
    (tA tB : Bool) (TS TSK WPT : Nat) (act : Option String) :
    ((mkMatMulPackedProgramCSV3 aShape outS tA tB TS WPT true
        act).consoleErrors = ["bias is not supported"] ∧
     "bias" ∉ (mkMatMulPackedProgramCSV3 aShape outS tA tB TS WPT true
        act).variableNames) ∧
    ((mkMatMulPackedProgramCSV4 aShape outS tA tB TS TSK WPT true
        act).consoleErrors = ["bias is not supported"] ∧
     "bias" ∉ (mkMatMulPackedProgramCSV4 aShape outS tA tB TS TSK WPT true
        act).variableNames) :=
  ⟨⟨rfl, by simp [mkMatMulPackedProgramCSV3]⟩,
   ⟨rfl, by simp [mkMatMulPackedProgramCSV4]⟩⟩

/-- **C7 counterexample**: for `aShape = [1,4,4]`,
`outputShape = [1,4,4]`, `transposeA = transposeB = false`, `TS = 2`, the
emitted `numTiles` constant of `MatMulPackedProgramCSV1` is `1`, not `2`:
the program tiles the packed reduction extent
`sharedDimensionPacked = ceil(4/2) = 2` with tile edge `2`, so
`numTiles = ceil(2/2) = 1`. -/
theorem csv1_example_numTiles_counterexample :
    (mkMatMulPackedProgramCSV1 (1, 4, 4) (1, 4, 4) false false 2 false
        none).numTiles = 1 ∧
    (mkMatMulPackedProgramCSV1 (1, 4, 4) (1, 4, 4) false false 2 false
        none).numTiles ≠ 2 := by decide

/-- **C7** (amended): for `aShape = [1,4,4]`, `outputShape = [1,4,4]`,
`transposeA = transposeB = false`, `TS = 2`, `MatMulPackedProgramCSV1`
produces a program with `localGroupSize = [2,2]`, emitted `numTiles`
constant `1` (the packed reduction extent is `ceil(4/2) = 2`, covered by
one tile of edge `2`), and shared tile arrays `Asub`/`Bsub` declared with
extents `[2][2]`. -/
theorem csv1_example_program_constants :
    (mkMatMulPackedProgramCSV1 (1, 4, 4) (1, 4, 4) false false 2 false
        none).localGroupSize = [2, 2] ∧
    (mkMatMulPackedProgramCSV1 (1, 4, 4) (1, 4, 4) false false 2 false
        none).numTiles = 1 ∧
    (mkMatMulPackedProgramCSV1 (1, 4, 4) (1, 4, 4) false false 2 false
        none).asubDims = (2, 2) ∧
    (mkMatMulPackedProgramCSV1 (1, 4, 4) (1, 4, 4) false false 2 false
        none).bsubDims = (2, 2) := by decide

/-- **C9**: every synthesizer copies the descriptor's output shape into
the produced program unchanged: the `outputShape` field of the program
returned by each of the seven constructors is exactly the output shape
supplied in the descriptor. -/
theorem program_outputShape_conformance :
    (∀ (aShape outS : Nat × Nat × Nat) (tA tB : Bool) (TS : Nat)
        (ab : Bool) (act : Option String),
      (mkMatMulPackedProgramCSV1 aShape outS tA tB TS ab act).outputShape =
        outS) ∧
    (∀ (aShape outS : Nat × Nat × Nat) (tA tB : Bool) (TS WPT : Nat)
        (ab : Bool) (act : Option String),
      (mkMatMulPackedProgramCSV2 aShape outS tA tB TS WPT ab
        act).outputShape = outS) ∧
    (∀ (aShape outS : Nat × Nat × Nat) (tA tB : Bool) (TS WPT : Nat)
        (ab : Bool) (act : Option String),
      (mkMatMulPackedProgramCSV3 aShape outS tA tB TS WPT ab
        act).outputShape = outS) ∧
    (∀ (aShape outS : Nat × Nat × Nat) (tA tB : Bool) (TS TSK WPT : Nat)
        (ab : Bool) (act : Option String),
      (mkMatMulPackedProgramCSV4 aShape outS tA tB TS TSK WPT ab
        act).outputShape = outS) ∧
    (∀ convInfo : Conv2DInfo,
      (mkDepthwiseConv2DProgramCS convInfo).outputShape =
        convInfo.outShape) ∧
    (∀ convInfo : Conv2DInfo,
      (mkConv2DProgramCS convInfo).outputShape = convInfo.outShape) ∧
    (∀ (outS : Nat × Nat × Nat) (tex : Nat × Nat),
      (mkDecodeMatrixPackedProgram outS tex).outputShape = outS) :=
  ⟨fun _ _ _ _ _ _ _ => rfl, fun _ _ _ _ _ _ _ _ => rfl,
   fun _ _ _ _ _ _ _ _ => rfl, fun _ _ _ _ _ _ _ _ _ => rfl,
   fun _ => rfl, fun _ => rfl, fun _ _ => rfl⟩

/-- **C10**: for every descriptor, the bodies emitted by CSV1, CSV3 and
CSV4 zero-initialize their register accumulators before the tile loop
(`vec4 result = vec4(0)` in CSV1, an explicit zeroing double loop in CSV3
and CSV4), while the body emitted by CSV2 declares `vec4 result[WPT]`
and accumulates into it inside the tile loop with no prior
zero-initialization statement. -/
theorem matmul_accumulator_initialization (aShape outS : Nat × Nat × Nat)
    (tA tB : Bool) (TS TSK WPT : Nat) (ab : Bool) (act : Option String) :
    accInitialized (mkMatMulPackedProgramCSV1 aShape outS tA tB TS ab
      act).body = true ∧
    accInitialized (mkMatMulPackedProgramCSV3 aShape outS tA tB TS WPT ab
      act).body = true ∧
    accInitialized (mkMatMulPackedProgramCSV4 aShape outS tA tB TS TSK WPT
      ab act).body = true ∧
    accInitialized (mkMatMulPackedProgramCSV2 aShape outS tA tB TS WPT ab
      act).body = false ∧
    MStmt.declAccNoInit WPT ∈ (mkMatMulPackedProgramCSV2 aShape outS tA tB
      TS WPT ab act).body := by
  refine ⟨rfl, rfl, rfl, rfl, ?_⟩
  simp [mkMatMulPackedProgramCSV2]

/-- A concrete convolution descriptor with non-zero padding for
`Conv2DProgramCS`: 4x4 input, one channel, 3x3 filter, stride 1,
dilation 1, pad 1 (output 1x4x4x1). -/
def conv2dBugInfo : Conv2DInfo :=
  { inHeight := 4, inWidth := 4, inChannels := 1, outChannels := 1,
    outShape := [1, 4, 4, 1], strideHeight := 1, strideWidth := 1,
    dilationHeight := 1, dilationWidth := 1, filterHeight := 3,
    filterWidth := 3, padTop := 1, padLeft := 1 }

/-- **C3** (code bug in `Conv2DProgramCS`): with non-zero padding the
standard convolution body indexes the shared cache outside its declared
extents.  Its cache corner (lines 193–196) omits the pad offset, so for
the thread at output row `yR = 1`, column `yC = 0` of `conv2dBugInfo`,
the filter tap `wR = 0` passes the emitted guard (`xR = 0` is inside
`[0, inHeight)`) yet reads `cache[sR]` with
`sR = xR - cacheRCorner = -1`, outside the declared `[0, cacheH)` with
`cacheH = 3` — an out-of-extent shared-memory read the claim rules out. -/
theorem conv2d_cache_row_underflow :
    (mkConv2DProgramCS conv2dBugInfo).cacheH = 3 ∧
    ((-1 : Int), (0 : Int)) ∈ (mkConv2DProgramCS conv2dBugInfo).reads 1 0 ∧
    ∃ p ∈ (mkConv2DProgramCS conv2dBugInfo).reads 1 0, p.1 < 0 := by
  decide

/-- **C6**: in the body emitted by `DepthwiseConv2DProgramCS` the phases
appear in the order cache fill, `memoryBarrierShared`, `barrier`,
out-of-range-channel discard, compute; every thread — in particular one
whose output channel is out of range — executes the fill statement and
reaches the barrier (the executed statements form a prefix of the body
containing the fill and both barriers), the compute phase runs exactly for
threads whose `gl_GlobalInvocationID.x` is below `outChannels`, and the
cache-fill guard is `gl_LocalInvocationIndex < cacheHW`, independent of
the thread's channel. -/
theorem dw_phase_ordering (convInfo : Conv2DInfo) (t : DwThread) :
    (∃ rest, dwRun convInfo.outChannels t
        (mkDepthwiseConv2DProgramCS convInfo).body ++ rest =
        (mkDepthwiseConv2DProgramCS convInfo).body) ∧
    DwStmt.fillCacheIf ∈ dwRun convInfo.outChannels t
      (mkDepthwiseConv2DProgramCS convInfo).body ∧
    DwStmt.memBarrierShared ∈ dwRun convInfo.outChannels t
      (mkDepthwiseConv2DProgramCS convInfo).body ∧
    DwStmt.barrierStmt ∈ dwRun convInfo.outChannels t
      (mkDepthwiseConv2DProgramCS convInfo).body ∧
    (DwStmt.computeDotProd ∈ dwRun convInfo.outChannels t
        (mkDepthwiseConv2DProgramCS convInfo).body ↔
      t.globalX < convInfo.outChannels) ∧
    (dwFillsCache (mkDepthwiseConv2DProgramCS convInfo) t = true ↔
      t.localIndex < (mkDepthwiseConv2DProgramCS convInfo).cacheHW) ∧
    dwFillsCache (mkDepthwiseConv2DProgramCS convInfo)
        { localIndex := t.localIndex, globalX := 0 } =
      dwFillsCache (mkDepthwiseConv2DProgramCS convInfo) t ∧
    (mkDepthwiseConv2DProgramCS convInfo).body.indexOf
        DwStmt.fillCacheIf <
      (mkDepthwiseConv2DProgramCS convInfo).body.indexOf
        DwStmt.memBarrierShared ∧
    (mkDepthwiseConv2DProgramCS convInfo).body.indexOf
        DwStmt.memBarrierShared <
      (mkDepthwiseConv2DProgramCS convInfo).body.indexOf
        DwStmt.barrierStmt ∧
    (mkDepthwiseConv2DProgramCS convInfo).body.indexOf
        DwStmt.barrierStmt <
      (mkDepthwiseConv2DProgramCS convInfo).body.indexOf
        DwStmt.discardIfOutOfRange ∧
    (mkDepthwiseConv2DProgramCS convInfo).body.indexOf
        DwStmt.discardIfOutOfRange <
      (mkDepthwiseConv2DProgramCS convInfo).body.indexOf
        DwStmt.computeDotProd := by
  have hrun : dwRun convInfo.outChannels t
      (mkDepthwiseConv2DProgramCS convInfo).body =
      if convInfo.outChannels ≤ t.globalX then
        [DwStmt.getFirstThreadCoords, DwStmt.computeCacheCorners,
         DwStmt.fillCacheIf, DwStmt.memBarrierShared, DwStmt.barrierStmt,
         DwStmt.discardIfOutOfRange]
      else (mkDepthwiseConv2DProgramCS convInfo).body := by
    by_cases h : convInfo.outChannels ≤ t.globalX <;>
      simp [mkDepthwiseConv2DProgramCS, dwRun, h]
  have hb : (mkDepthwiseConv2DProgramCS convInfo).body =
      [DwStmt.getFirstThreadCoords, DwStmt.computeCacheCorners,
       DwStmt.fillCacheIf, DwStmt.memBarrierShared, DwStmt.barrierStmt,
       DwStmt.discardIfOutOfRange, DwStmt.computeDotProd,
       DwStmt.setOutputStmt] := rfl
  rw [hrun, hb]
  by_cases h : convInfo.outChannels ≤ t.globalX
  · rw [if_pos h]
    refine ⟨⟨[DwStmt.computeDotProd, DwStmt.setOutputStmt], rfl⟩,
      by decide, by decide, by decide, ?_,
      by simp [dwFillsCache], rfl, by decide, by decide, by decide,
      by decide⟩
    constructor
    · intro hc
      exact absurd hc (by decide)
    · intro hc
      exact absurd hc (by omega)
  · rw [if_neg h]
    refine ⟨⟨[], by simp⟩, by decide, by decide, by decide, ?_,
      by simp [dwFillsCache], rfl, by decide, by decide, by decide,
      by decide⟩
    exact ⟨fun _ => by omega, fun _ => by decide⟩

/-- **C8**: for every depthwise descriptor whose `channelMul`
(`outChannels / inChannels`, as computed by the constructor) is a
positive integer multiplier, and for every output channel
`d2 < outChannels`, the emitted computations `d1 = d2 / channelMul` and
`q = d2 - d1 * channelMul` satisfy `d1 < inChannels` and
`q < channelMul` (both are `Nat`, so `0 ≤ d1` and `0 ≤ q` hold by
construction). -/
theorem dw_channel_index_mapping (convInfo : Conv2DInfo) (d2 : Nat)
    (hcm : 0 < (mkDepthwiseConv2DProgramCS convInfo).channelMul)
    (hmul : convInfo.outChannels = convInfo.inChannels *
      (mkDepthwiseConv2DProgramCS convInfo).channelMul)
    (hd2 : d2 < convInfo.outChannels) :
    dwD1 (mkDepthwiseConv2DProgramCS convInfo).channelMul d2 <
      convInfo.inChannels ∧
    dwQ (mkDepthwiseConv2DProgramCS convInfo).channelMul d2 <
      (mkDepthwiseConv2DProgramCS convInfo).channelMul := by
  set cm := (mkDepthwiseConv2DProgramCS convInfo).channelMul with hcmdef
  have hdm : cm * (d2 / cm) + d2 % cm = d2 := Nat.div_add_mod d2 cm
  have hcomm : d2 / cm * cm = cm * (d2 / cm) := Nat.mul_comm _ _
  have hq : dwQ cm d2 = d2 % cm := by
    unfold dwQ dwD1
    omega
  constructor
  · exact (Nat.div_lt_iff_lt_mul hcm).mpr (hmul ▸ hd2)
  · rw [hq]
    exact Nat.mod_lt _ hcm

/-- A concrete depthwise descriptor matching the spec's example: 8x8
input, 3 input channels, channel multiplier 2 (6 output channels), 3x3
filter, stride 1, pad 1. -/
def dwExampleInfo : Conv2DInfo :=
  { inHeight := 8, inWidth := 8, inChannels := 3, outChannels := 6,
    outShape := [1, 8, 8, 6], strideHeight := 1, strideWidth := 1,
    dilationHeight := 1, dilationWidth := 1, filterHeight := 3,
    filterWidth := 3, padTop := 1, padLeft := 1 }

/-- Witness for `dw_channel_index_mapping` at `dwExampleInfo` with
`d2 = 5`: the mapping yields `d1 = 2 < 3` and `q = 1 < 2`. -/
theorem dw_channel_index_mapping_witness :
    (0 < (mkDepthwiseConv2DProgramCS dwExampleInfo).channelMul ∧
     dwExampleInfo.outChannels = dwExampleInfo.inChannels *
       (mkDepthwiseConv2DProgramCS dwExampleInfo).channelMul ∧
     5 < dwExampleInfo.outChannels) ∧
    (dwD1 (mkDepthwiseConv2DProgramCS dwExampleInfo).channelMul 5 <
       dwExampleInfo.inChannels ∧
     dwQ (mkDepthwiseConv2DProgramCS dwExampleInfo).channelMul 5 <
       (mkDepthwiseConv2DProgramCS dwExampleInfo).channelMul) ∧
    dwD1 2 5 = 2 ∧ dwQ 2 5 = 1 :=
  ⟨⟨by decide, by decide, by decide⟩,
   dw_channel_index_mapping dwExampleInfo 5 (by decide) (by decide)
     (by decide),
   by decide, by decide⟩
